import Mathlib

/-!
Shallow embedding of the stock-request pipeline of `stock_bot.py`
(symbol resolution, market-data fetch, chart rendering, analysis client,
message formatting, request orchestration), together with theorems that
settle the specification claims against it.

Modelling conventions:
* Python strings are Lean `String`s; all character-level operations
  (slicing, replace, strip, upper, endswith) are defined over `String.data`
  (the list of unicode code points), matching CPython's code-point
  semantics for `len`, slicing and `str` methods on the ASCII data used here.
* Python dictionaries holding quote metadata are association lists
  `List (String × PyVal)`; numeric values are modelled as exact integers
  (`PyVal.int`), since none of the verified claims depends on
  floating-point rounding; `%.2f`-style formatting is modelled as exact
  rational rounding (round half to even) of the integer quotient.
* Network and rendering effects are oracles: a `Provider` supplies the
  results (or exception messages) of the two market-data lookups, an
  `ApiOutcome` the result of the analysis HTTP call, and a `ChartEnv`
  whether the matplotlib calls raise.  Exceptions are `Except.error`
  carrying `str(e)`.
-/

/-- A Python value stored in a quote-metadata dictionary: either a number
(modelled as an exact integer) or a string. -/
inductive PyVal where
  | int (n : Int)
  | str (s : String)
  deriving DecidableEq

/-- The `stock.info` dictionary of the source: an association list from
field names to values (first binding wins, as in a Python dict). -/
abbrev InfoDict := List (String × PyVal)

/-- Python `k in d` for an `InfoDict`. -/
def dictContains (d : InfoDict) (k : String) : Bool :=
  d.any (fun kv => kv.fst == k)

/-- Python `d.get(k, dflt)` for an `InfoDict`. -/
def dictGet (d : InfoDict) (k : String) (dflt : PyVal) : PyVal :=
  match d.find? (fun kv => kv.fst == k) with
  | some kv => kv.snd
  | none => dflt

/-- Python `str.upper()`, restricted to its ASCII behaviour (the source
only uppercases ticker symbols). -/
def pyUpper (s : String) : String :=
  ⟨s.data.map Char.toUpper⟩

/-- Python `str.strip()`: drop leading and trailing whitespace. -/
def pyStrip (s : String) : String :=
  ⟨((s.data.dropWhile Char.isWhitespace).reverse.dropWhile Char.isWhitespace).reverse⟩

/-- Python `s.endswith(suffix)`. -/
def pyEndsWith (s suffix : String) : Bool :=
  suffix.data.isSuffixOf s.data

/-- Python slicing `s[:n]`: the first `n` code points. -/
def pyTake (s : String) (n : Nat) : String :=
  ⟨s.data.take n⟩

/-- Helper for `pyReplace`: fuelled leftmost non-overlapping replacement of
`pat` by `rep` (the fuel is the input length, which suffices for the
non-empty patterns the source uses). -/
def pyReplaceAux (pat rep : List Char) : Nat → List Char → List Char
  | 0, cs => cs
  | _ + 1, [] => []
  | n + 1, c :: cs =>
    if pat ≠ [] ∧ pat.isPrefixOf (c :: cs) then
      rep ++ pyReplaceAux pat rep n ((c :: cs).drop pat.length)
    else
      c :: pyReplaceAux pat rep n cs

/-- Python `s.replace(pat, rep)`. -/
def pyReplace (s pat rep : String) : String :=
  ⟨pyReplaceAux pat.data rep.data s.data.length s.data⟩

/-- Helper for `countOccur`: fuelled count of leftmost non-overlapping
occurrences of `pat`. -/
def countOccurAux (pat : List Char) : Nat → List Char → Nat
  | 0, _ => 0
  | _ + 1, [] => 0
  | n + 1, c :: cs =>
    if pat.isPrefixOf (c :: cs) then
      1 + countOccurAux pat n ((c :: cs).drop pat.length)
    else
      countOccurAux pat n cs

/-- Number of non-overlapping occurrences of `pat` in `s`
(Python `s.count(pat)` for non-empty `pat`). -/
def countOccur (s pat : String) : Nat :=
  countOccurAux pat.data s.data.length s.data

/-- Helper for digit grouping: the input is the reversed digit list; a
comma is inserted after every third digit. -/
def insertCommasRev : List Char → List Char
  | a :: b :: c :: d :: rest => a :: b :: c :: ',' :: insertCommasRev (d :: rest)
  | l => l

/-- Python `f"{n:,}"` for an integer: decimal digits grouped in threes. -/
def groupInt (n : Int) : String :=
  (if n < 0 then "-" else "") ++ ⟨(insertCommasRev (Nat.toDigits 10 n.natAbs).reverse).reverse⟩

/-- Python `format(v, ",")` as used by the prompt f-string: grouping a
string value raises a `ValueError` (comma format spec on type `s`); the
`Except` error carries `str(e)` of that exception. -/
def pyFormatComma : PyVal → Except String String
  | .int n => .ok (groupInt n)
  | .str _ => .error "Cannot specify \u0027,\u0027 with \u0027s\u0027."

/-- Python `str(v)` for the values stored in an `InfoDict`. -/
def pyStr : PyVal → String
  | .int n => toString n
  | .str s => s

/-- Two-decimal rendering of the exact rational `num / den` (`den > 0`),
rounding half to even; models CPython `f"{x:.2f}"` on the exact values
the claims exercise. -/
def fixed2OfNat (num den : Nat) : String :=
  let scaled := num * 100
  let q := scaled / den
  let r := scaled % den
  let c : Nat :=
    if 2 * r < den then q
    else if den < 2 * r then q + 1
    else if q % 2 = 0 then q else q + 1
  Nat.repr (c / 100) ++ "." ++ (if c % 100 < 10 then "0" else "") ++ Nat.repr (c % 100)

/-- `f"{n / den:.2f}"` for an integer `n` and positive divisor `den`. -/
def fixed2Int (n : Int) (den : Nat) : String :=
  (if n < 0 then "-" else "") ++ fixed2OfNat n.natAbs den

/-- The fixed allow-list of well-known Indian tickers
(`stock_bot.py`, line 65). -/
def indianSymbols : List String :=
  ["RELIANCE", "TCS", "HDFCBANK", "INFY", "SBIN", "TATAMOTORS", "WIPRO"]

/-- Symbol resolution, inlined in `get_stock_data` (lines 62-66): a token
already carrying the `.NS`/`.BO` suffix passes through; a suffix-less
token from the allow-list gets `.NS` appended; everything else passes
through. -/
def resolveSymbol (symbol : String) : String :=
  if pyEndsWith symbol ".NS" || pyEndsWith symbol ".BO" then symbol
  else if symbol ∈ indianSymbols then symbol ++ ".NS" else symbol

/-- Oracle for the two `yfinance` lookups performed by `get_stock_data`:
`info` models `yf.Ticker(sym).info`, `history` models
`stock.history(start, end)` as the list of closing prices; an
`Except.error` is a raised exception with its `str(e)`. -/
structure Provider where
  info : String → Except String InfoDict
  history : String → Except String (List ℚ)

/-- The dictionary returned by `get_stock_data`: either
`{'success': False, 'error': e}` or
`{'success': True, 'info': info, 'history': history}`. -/
inductive StockData where
  | failure (error : String)
  | success (info : InfoDict) (history : List ℚ)
  deriving DecidableEq

/-- Error message of `get_stock_data` when no metadata is available and
the symbol was NOT modified by suffix-guessing (line 81). -/
def noDataHintMsg (symbol : String) : String :=
  "No data available for " ++ symbol ++
    ". If this is an Indian stock, try adding .NS (for NSE) or .BO (for BSE) to the symbol."

/-- Error message of `get_stock_data` when no metadata is available and
the symbol WAS modified by suffix-guessing (line 84). -/
def noDataGenericMsg : String :=
  "No data available for this symbol. Please check if the symbol is correct."

/-- Error message of `get_stock_data` for an empty history (line 96). -/
def noHistoryMsg : String := "No historical data available"

/-- `get_stock_data` (lines 58-107).  The inline suffix handling is
`resolveSymbol`; `original_symbol = symbol` of the source becomes
`symbol = resolveSymbol symbol`.  The surrounding `try/except` converts
any provider exception into `{'success': False, 'error': str(e)}`. -/
def get_stock_data (symbol : String) (p : Provider) : StockData :=
  match p.info (resolveSymbol symbol) with
  | .error e => .failure e
  | .ok info =>
    if info.isEmpty || !(dictContains info "regularMarketPrice") then
      if symbol = resolveSymbol symbol then .failure (noDataHintMsg (resolveSymbol symbol))
      else .failure noDataGenericMsg
    else
      match p.history (resolveSymbol symbol) with
      | .error e => .failure e
      | .ok history =>
        if history.isEmpty then .failure noHistoryMsg
        else .success info history

/-- Oracle for the matplotlib calls inside `generate_chart`: whether
`ax.plot` (or the customisation before saving) raises, and whether
`plt.savefig` raises; `some e` is a raised exception with message `e`. -/
structure ChartEnv where
  plotError : Option String
  saveError : Option String

/-- The process-wide matplotlib figure registry: the identifiers of the
figures currently open, and the identifier the next `plt.figure()`
allocates.  `plt.clf()` clears the current figure's contents and is a
no-op on this registry; `plt.close(fig)` removes `fig` from it. -/
structure FigCtx where
  openFigs : List Nat
  nextId : Nat
  deriving DecidableEq

/-- `generate_chart` (lines 109-149): creates a figure, plots, saves to an
in-memory buffer, and closes the figure only on the success path; any
exception is re-raised as `Exception(f"Failed to generate chart: {str(e)}")`.
The returned `FigCtx` is the figure registry after the call; the buffer
is opaque and modelled as `Unit`. -/
def generate_chart (_history : List ℚ) (env : ChartEnv) (st : FigCtx) : FigCtx × Except String Unit :=
  let fid := st.nextId
  let st1 : FigCtx := ⟨fid :: st.openFigs, st.nextId + 1⟩
  match env.plotError with
  | some e => (st1, .error ("Failed to generate chart: " ++ e))
  | none =>
    match env.saveError with
    | some e => (st1, .error ("Failed to generate chart: " ++ e))
    | none => (⟨st1.openFigs.filter (fun x => x != fid), st1.nextId⟩, .ok ())

/-- Oracle for the Perplexity HTTP call: a timeout, a transport error, or
a response with status code, body text and parsed JSON.  The JSON is
abstracted to the list of `choices[i].message.content` strings (`none`
when the `choices` key is absent); `Except.error` models `response.json()`
itself raising. -/
inductive ApiOutcome where
  | timeout
  | requestError (msg : String)
  | response (status : Nat) (text : String) (json : Except String (Option (List String)))

/-- The prompt f-string of `get_perplexity_analysis` (lines 158-166),
built BEFORE the `try` block.  Evaluation order follows the f-string:
the `marketCap` field is comma-formatted first, then `volume`; either
raises a `ValueError` when the field is absent (the `'N/A'` default is a
string).  An `Except.error` is that uncaught exception. -/
def buildPrompt (info : InfoDict) : Except String String :=
  match pyFormatComma (dictGet info "marketCap" (.str "N/A")) with
  | .error e => .error e
  | .ok mcap =>
    match pyFormatComma (dictGet info "volume" (.str "N/A")) with
    | .error e => .error e
    | .ok vol =>
      .ok ("Analyze the following stock data and provide a very concise 3-4 sentence summary:\n    Current Price: $"
        ++ pyStr (dictGet info "currentPrice" (.str "N/A"))
        ++ "\n    Market Cap: $" ++ mcap
        ++ "\n    P/E Ratio: " ++ pyStr (dictGet info "trailingPE" (.str "N/A"))
        ++ "\n    52-Week High: $" ++ pyStr (dictGet info "fiftyTwoWeekHigh" (.str "N/A"))
        ++ "\n    52-Week Low: $" ++ pyStr (dictGet info "fiftyTwoWeekLow" (.str "N/A"))
        ++ "\n    Volume: " ++ vol
        ++ "\n    \n    Focus on: 1) Current position vs 52-week range, 2) Key valuation insight from P/E ratio, 3) Brief outlook. Use plain text without markdown formatting.")

/-- `get_perplexity_analysis` (lines 151-219).  The prompt is built before
the `try`, so a prompt-construction exception propagates (`Except.error`);
every failure of the HTTP call itself is caught inside the `try` and
returned as an explanatory string. -/
def get_perplexity_analysis (info : InfoDict) (outcome : ApiOutcome) : Except String String :=
  match buildPrompt info with
  | .error e => .error e
  | .ok _prompt =>
    .ok (match outcome with
      | .timeout => "Unable to generate analysis: Request timed out"
      | .requestError m => "Unable to generate analysis: Network error - " ++ m
      | .response status text json =>
        if status ≠ 200 then "Unable to generate analysis. Error: " ++ text
        else
          match json with
          | .error m => "Unable to generate analysis: " ++ m
          | .ok (some (c :: _)) => c
          | .ok _ => "Unable to generate analysis: Unexpected API response format")

/-- The market-cap rendering of `format_stock_message` (lines 226-233):
unit suffixes at fixed thresholds for numeric values; a non-numeric value
is left unchanged (integers below a million are rendered by the f-string
via `str`). -/
def formatMarketCap : PyVal → String
  | .int n =>
    if 1000000000000 ≤ n then "$" ++ fixed2Int n 1000000000000 ++ "T"
    else if 1000000000 ≤ n then "$" ++ fixed2Int n 1000000000 ++ "B"
    else if 1000000 ≤ n then "$" ++ fixed2Int n 1000000 ++ "M"
    else pyStr (.int n)
  | .str s => s

/-- The price rendering of `format_stock_message` (lines 236-240):
`f"${v:.2f}"` for a numeric value, `N/A` otherwise. -/
def formatMoney2 : PyVal → String
  | .int n => "$" ++ fixed2Int n 1
  | .str _ => "N/A"

/-- The P/E rendering of `format_stock_message` (lines 242-243):
`f"{v:.2f}"` for a numeric value, `N/A` otherwise. -/
def formatNum2 : PyVal → String
  | .int n => fixed2Int n 1
  | .str _ => "N/A"

/-- The markdown stripping of `format_stock_message` (lines 246-251). -/
def cleanAnalysis (analysis : String) : String :=
  pyReplace (pyReplace (pyReplace (pyReplace (pyReplace analysis "**" "") "*" "") "`" "") "_" "") "#" ""

/-- The body of the assembled message of `format_stock_message`
(lines 256-262): everything after the symbol header line. -/
def formatBody (info : InfoDict) (analysis : String) : String :=
  "💰 Current Price: " ++ formatMoney2 (dictGet info "currentPrice" (.str "N/A")) ++ "\n"
    ++ "📈 Previous Close: " ++ formatMoney2 (dictGet info "previousClose" (.str "N/A")) ++ "\n"
    ++ "💹 Market Cap: " ++ formatMarketCap (dictGet info "marketCap" (.str "N/A")) ++ "\n"
    ++ "📊 P/E Ratio: " ++ formatNum2 (dictGet info "trailingPE" (.str "N/A")) ++ "\n\n"
    ++ "📝 *Analysis*:\n" ++ cleanAnalysis analysis ++ "\n\n"

/-- The assembled message of `format_stock_message` before the length
check (lines 254-262).  The source reads the `'info'` entry of the
`stock_data` dictionary; the embedding takes that entry directly. -/
def formatUnbounded (symbol : String) (info : InfoDict) (analysis : String) : String :=
  ("📊 *" ++ pyUpper symbol ++ " Stock Analysis*\n\n") ++ formatBody info analysis

/-- `format_stock_message` (lines 221-268): the assembled message,
truncated to 997 code points plus `"..."` when longer than 1000. -/
def format_stock_message (symbol : String) (info : InfoDict) (analysis : String) : String :=
  let message := formatUnbounded symbol info analysis
  if message.length > 1000 then pyTake message 997 ++ "..." else message

/-- Oracle for one request handled by `handle_stock`: the market-data
provider, the matplotlib behaviour, the analysis HTTP outcome, and
whether `update.message.reply_photo` raises (`some e`). -/
structure Env where
  provider : Provider
  chart : ChartEnv
  api : ApiOutcome
  replyPhotoError : Option String

/-- The user-visible outcome of one request: either a photo with caption
was sent (and the processing placeholder deleted), or the placeholder
was edited to the given text. -/
inductive Delivery where
  | photo (caption : String)
  | edited (text : String)
  deriving DecidableEq

/-- The text the user ends up seeing, whichever way it was delivered. -/
def deliveredText : Delivery → String
  | .photo caption => caption
  | .edited text => text

/-- Message of the `UnboundLocalError` CPython raises when the
`except` block of `handle_stock` reads the local `analysis` before any
assignment to it (CPython 3.11 wording). -/
def unboundLocalAnalysis : String :=
  "cannot access local variable 'analysis' where it is not associated with a value"

/-- The `except chart_error` handler of `handle_stock` (lines 320-326).
`analysisOpt` is the state of the local `analysis` at the time the inner
`try` raised: when it is unbound (`none`), evaluating the fallback
f-string raises `UnboundLocalError`, which escapes to the outer `except`
handler (lines 328-332); when bound, the fallback text is delivered by
editing the placeholder. -/
def chartFailBranch (symbol : String) (info : InfoDict) (analysisOpt : Option String) : Delivery :=
  match analysisOpt with
  | none =>
    .edited ("❌ Error processing " ++ symbol ++ ": " ++ unboundLocalAnalysis
      ++ "\nPlease try again later.")
  | some analysis =>
    .edited (("📊 *" ++ pyUpper symbol ++ " - Stock Analysis*\n\n")
      ++ ("❌ Chart generation failed, but here's the analysis:\n\n"
        ++ format_stock_message symbol info analysis))

/-- `handle_stock` (lines 270-332).  The inner `try` runs, in order:
`generate_chart` (line 297), `get_perplexity_analysis` (line 302) — whose
prompt construction can itself raise — `format_stock_message` (total),
and `reply_photo` (line 310); the first exception jumps to the
`except chart_error` handler with the local `analysis` bound only if
line 302 completed. -/
def handle_stock (text : String) (env : Env) : Delivery :=
  let symbol := pyUpper (pyStrip text)
  match get_stock_data symbol env.provider with
  | .failure err =>
    .edited ("❌ Error: Unable to fetch data for " ++ symbol ++ ". Error: " ++ err)
  | .success info history =>
    match (generate_chart history env.chart ⟨[], 0⟩).2 with
    | .error _ => chartFailBranch symbol info none
    | .ok _ =>
      match get_perplexity_analysis info env.api with
      | .error _ => chartFailBranch symbol info none
      | .ok analysis =>
        let message := format_stock_message symbol info analysis
        match env.replyPhotoError with
        | some _ => chartFailBranch symbol info (some analysis)
        | none => .photo message

/-- Strings with equal character data are equal. -/
theorem strExt {a b : String} (h : a.data = b.data) : a = b := by
  cases a; cases b; exact congrArg String.mk h

/-- Character data of an appended string. -/
theorem sdata_append (a b : String) : (a ++ b).data = a.data ++ b.data := by
  cases a; cases b; rfl

/-- Length of an appended string. -/
theorem slength_append (a b : String) : (a ++ b).length = a.length + b.length := by
  cases a; cases b; exact List.length_append _ _

/-- String append is associative. -/
theorem sappend_assoc (a b c : String) : a ++ b ++ c = a ++ (b ++ c) := by
  apply strExt; simp only [sdata_append, List.append_assoc]

/-- Length of a Python slice `s[:n]`. -/
theorem pyTake_length (s : String) (n : Nat) : (pyTake s n).length = min n s.length := by
  show (s.data.take n).length = min n s.data.length
  exact List.length_take n s.data

/-- `d.get(k, dflt)` returns the default when `k` is not a key of `d`. -/
theorem dictGet_of_not_contains (d : InfoDict) (k : String) (v : PyVal)
    (h : dictContains d k = false) : dictGet d k v = v := by
  induction d with
  | nil => rfl
  | cons kv tl ih =>
    simp only [dictContains, List.any_cons, Bool.or_eq_false_iff] at h
    simp only [dictGet, List.find?_cons, h.1]
    exact ih h.2

/-- C5: symbol resolution is pure and total; a token already ending in
`.NS` or `.BO` passes through unchanged, a suffix-less token from the
fixed allow-list gets `.NS` appended, and every other token passes
through unchanged. -/
theorem c5_symbol_resolution (s : String) :
    ((pyEndsWith s ".NS" = true ∨ pyEndsWith s ".BO" = true) → resolveSymbol s = s) ∧
    (pyEndsWith s ".NS" = false → pyEndsWith s ".BO" = false → s ∈ indianSymbols →
      resolveSymbol s = s ++ ".NS") ∧
    (pyEndsWith s ".NS" = false → pyEndsWith s ".BO" = false → s ∉ indianSymbols →
      resolveSymbol s = s) := by
  refine ⟨fun h => ?_, fun h1 h2 h3 => ?_, fun h1 h2 h3 => ?_⟩
  · rcases h with h | h <;> simp [resolveSymbol, h]
  · simp [resolveSymbol, h1, h2, h3]
  · simp [resolveSymbol, h1, h2, h3]

/-- C5 witness: the three branches of `c5_symbol_resolution` evaluated at
concrete tokens. -/
theorem c5_symbol_resolution_witness :
    resolveSymbol "TCS.BO" = "TCS.BO" ∧
    resolveSymbol "RELIANCE" = "RELIANCE" ++ ".NS" ∧
    resolveSymbol "AAPL" = "AAPL" :=
  ⟨(c5_symbol_resolution "TCS.BO").1 (Or.inr (by decide)),
   (c5_symbol_resolution "RELIANCE").2.1 (by decide) (by decide) (by decide),
   (c5_symbol_resolution "AAPL").2.2 (by decide) (by decide) (by decide)⟩

/-- C7: any exception raised by either provider lookup is caught by
`get_stock_data` and converted into a failure dictionary carrying the
exception message. -/
theorem c7_provider_exceptions_absorbed (symbol e : String) (p : Provider) :
    (p.info (resolveSymbol symbol) = .error e → get_stock_data symbol p = .failure e) ∧
    (∀ info, p.info (resolveSymbol symbol) = .ok info →
      (info.isEmpty || !(dictContains info "regularMarketPrice")) = false →
      p.history (resolveSymbol symbol) = .error e →
      get_stock_data symbol p = .failure e) := by
  constructor
  · intro h
    simp [get_stock_data, h]
  · intro info hi hguard hh
    simp [get_stock_data, hi, hguard, hh]

/-- C7 witness: both lookup-exception paths of
`c7_provider_exceptions_absorbed` evaluated on concrete providers. -/
theorem c7_provider_exceptions_absorbed_witness :
    get_stock_data "AAPL" ⟨fun _ => .error "boom", fun _ => .ok []⟩ = .failure "boom" ∧
    get_stock_data "AAPL"
        ⟨fun _ => .ok [("regularMarketPrice", .int 1)], fun _ => .error "hist boom"⟩ =
      .failure "hist boom" :=
  ⟨(c7_provider_exceptions_absorbed "AAPL" "boom" _).1 rfl,
   (c7_provider_exceptions_absorbed "AAPL" "hist boom" _).2
     [("regularMarketPrice", .int 1)] rfl (by decide) rfl⟩

/-- C9: every result of `get_stock_data` is either a failure carrying an
error string, or a success carrying an info dictionary together with a
non-empty history. -/
theorem c9_result_shape (symbol : String) (p : Provider) :
    (∃ e, get_stock_data symbol p = .failure e) ∨
    (∃ info history, get_stock_data symbol p = .success info history ∧ history ≠ []) := by
  cases hi : p.info (resolveSymbol symbol) with
  | error e => exact .inl ⟨e, by simp [get_stock_data, hi]⟩
  | ok info =>
    by_cases hg : (info.isEmpty || !(dictContains info "regularMarketPrice")) = true
    · by_cases he : symbol = resolveSymbol symbol
      · refine .inl ⟨noDataHintMsg (resolveSymbol symbol), ?_⟩
        simp only [get_stock_data, hi]
        rw [if_pos hg, if_pos he]
      · refine .inl ⟨noDataGenericMsg, ?_⟩
        simp only [get_stock_data, hi]
        rw [if_pos hg, if_neg he]
    · cases hh : p.history (resolveSymbol symbol) with
      | error e => exact .inl ⟨e, by simp [get_stock_data, hi, hg, hh]⟩
      | ok history =>
        cases history with
        | nil => exact .inl ⟨noHistoryMsg, by simp [get_stock_data, hi, hg, hh]⟩
        | cons c cs =>
          exact .inr ⟨info, c :: cs, by simp [get_stock_data, hi, hg, hh], by simp⟩

/-- C9 witness: the shape disjunction evaluated on a concrete request. -/
theorem c9_result_shape_witness :
    (∃ e, get_stock_data "AAPL" ⟨fun _ => .ok [], fun _ => .ok []⟩ = .failure e) ∨
    (∃ info history,
      get_stock_data "AAPL" ⟨fun _ => .ok [], fun _ => .ok []⟩ = .success info history ∧
      history ≠ []) :=
  c9_result_shape "AAPL" ⟨fun _ => .ok [], fun _ => .ok []⟩

/-- C3: the formatted message never exceeds 1000 characters, and whenever
the unbounded composition exceeds 1000 characters the result is exactly
1000 characters and ends with the ellipsis marker. -/
theorem c3_message_length (symbol : String) (info : InfoDict) (analysis : String) :
    (format_stock_message symbol info analysis).length ≤ 1000 ∧
    (1000 < (formatUnbounded symbol info analysis).length →
      (format_stock_message symbol info analysis).length = 1000 ∧
      ∃ p, format_stock_message symbol info analysis = p ++ "...") := by
  unfold format_stock_message
  by_cases h : (formatUnbounded symbol info analysis).length > 1000
  · rw [if_pos h]
    have hlen : (pyTake (formatUnbounded symbol info analysis) 997 ++ "...").length = 1000 := by
      rw [slength_append, pyTake_length]
      have h997 : min 997 (formatUnbounded symbol info analysis).length = 997 := by omega
      rw [h997]
      rfl
    exact ⟨le_of_eq hlen, fun _ => ⟨hlen, ⟨pyTake (formatUnbounded symbol info analysis) 997, rfl⟩⟩⟩
  · rw [if_neg h]
    exact ⟨by omega, fun hc => absurd hc h⟩

set_option maxRecDepth 100000 in
/-- C3 witness: a composition longer than 1000 characters is truncated to
exactly 1000 characters ending in the ellipsis marker. -/
theorem c3_message_length_witness :
    1000 < (formatUnbounded "A" [] (⟨List.replicate 1001 'a'⟩ : String)).length ∧
    (format_stock_message "A" [] (⟨List.replicate 1001 'a'⟩ : String)).length = 1000 ∧
    (∃ p, format_stock_message "A" [] (⟨List.replicate 1001 'a'⟩ : String) = p ++ "...") :=
  ⟨by decide,
   ((c3_message_length "A" [] ⟨List.replicate 1001 'a'⟩).2 (by decide)).1,
   ((c3_message_length "A" [] ⟨List.replicate 1001 'a'⟩).2 (by decide)).2⟩

/-- The provider and request oracle of the C1 scenario: the data fetch
succeeds and `ax.plot` inside `generate_chart` raises. -/
def c1Provider : Provider :=
  ⟨fun _ => .ok [("regularMarketPrice", .int 1)], fun _ => .ok [1]⟩

/-- Request oracle for the C1 scenario. -/
def c1Env : Env := ⟨c1Provider, ⟨some "boom", none⟩, .timeout, none⟩

set_option maxRecDepth 100000 in
/-- C1: the data fetch succeeds and chart rendering raises, yet the
delivered message is the generic outer-handler error — reading the unbound
local `analysis` in the fallback branch raises `UnboundLocalError` — and
the text-only fallback containing the chart-failure prefix is NOT
delivered. -/
theorem c1_chart_failure_fallback_is_dead_code :
    (∃ info history,
      get_stock_data (pyUpper (pyStrip "AAPL")) c1Provider = .success info history) ∧
    handle_stock "AAPL" c1Env =
      .edited ("❌ Error processing AAPL: " ++ unboundLocalAnalysis ++ "\nPlease try again later.") ∧
    countOccur (deliveredText (handle_stock "AAPL" c1Env)) "Chart generation failed" = 0 :=
  ⟨⟨[("regularMarketPrice", .int 1)], [1], rfl⟩, rfl, by decide⟩

set_option maxRecDepth 100000 in
/-- C2: when the `marketCap` (or `volume`) field is absent, the comma
format specifier is applied to the string default `N/A` inside the prompt
f-string, which is evaluated before the `try` block — so
`get_perplexity_analysis` raises instead of returning a placeholder
string; with both fields numeric, every modelled HTTP failure is returned
as an explanatory string and absent fields appear as `N/A` in the
prompt. -/
theorem c2_missing_field_raises :
    get_perplexity_analysis [("currentPrice", .int 150)] .timeout =
      .error "Cannot specify ',' with 's'." ∧
    get_perplexity_analysis [("marketCap", .int 5), ("volume", .int 7)] .timeout =
      .ok "Unable to generate analysis: Request timed out" ∧
    get_perplexity_analysis [("marketCap", .int 5), ("volume", .int 7)] (.requestError "conn reset") =
      .ok "Unable to generate analysis: Network error - conn reset" ∧
    get_perplexity_analysis [("marketCap", .int 5), ("volume", .int 7)] (.response 500 "oops" (.ok none)) =
      .ok "Unable to generate analysis. Error: oops" ∧
    get_perplexity_analysis [("marketCap", .int 5), ("volume", .int 7)] (.response 200 "" (.ok none)) =
      .ok "Unable to generate analysis: Unexpected API response format" ∧
    (∃ prompt, buildPrompt [("marketCap", .int 5), ("volume", .int 7)] = .ok prompt ∧
      1 ≤ countOccur prompt "Current Price: $N/A") :=
  ⟨rfl, rfl, rfl, rfl, rfl, ⟨_, rfl, by decide⟩⟩

set_option maxRecDepth 100000 in
/-- C8: the success path of `generate_chart` closes the created figure,
but the exception path re-raises with the cause preserved while leaving
the created figure open — the rendering context is NOT released on every
exit path. -/
theorem c8_figure_leak_on_exception :
    generate_chart [1] ⟨none, none⟩ ⟨[], 0⟩ = (⟨[], 1⟩, .ok ()) ∧
    generate_chart [1, 2] ⟨some "boom", none⟩ ⟨[], 0⟩ =
      (⟨[0], 1⟩, .error ("Failed to generate chart: " ++ "boom")) ∧
    (generate_chart [1, 2] ⟨some "boom", none⟩ ⟨[], 0⟩).1.openFigs ≠ [] :=
  ⟨rfl, rfl, by decide⟩

set_option maxRecDepth 100000 in
/-- C4 counterexample: a present non-numeric market-cap value is rendered
unchanged by `format_stock_message`, not as `N/A` as the claim states. -/
theorem c4_counterexample :
    formatMarketCap (.str "mystery") = "mystery" ∧ "mystery" ≠ "N/A" ∧
    countOccur (format_stock_message "X" [("marketCap", .str "mystery")] "")
      "Market Cap: mystery" = 1 :=
  ⟨rfl, by decide, by decide⟩

/-- C4 amended: numeric market caps get the `T`/`B`/`M` suffix at the
fixed thresholds with two decimal places, an absent value is rendered as
`N/A` (the `d.get` default), and a present non-numeric value passes
through unchanged. -/
theorem c4_market_cap_rendering :
    formatMarketCap (.int 2500000000000) = "$2.50T" ∧
    formatMarketCap (.int 3400000000) = "$3.40B" ∧
    formatMarketCap (.int 7000000) = "$7.00M" ∧
    (∀ info : InfoDict, dictContains info "marketCap" = false →
      formatMarketCap (dictGet info "marketCap" (.str "N/A")) = "N/A") ∧
    (∀ s : String, formatMarketCap (.str s) = s) ∧
    (∀ n : Int, 1000000000000 ≤ n →
      ∃ t, formatMarketCap (.int n) = "$" ++ t ++ "T") ∧
    (∀ n : Int, 1000000000 ≤ n → n < 1000000000000 →
      ∃ t, formatMarketCap (.int n) = "$" ++ t ++ "B") ∧
    (∀ n : Int, 1000000 ≤ n → n < 1000000000 →
      ∃ t, formatMarketCap (.int n) = "$" ++ t ++ "M") := by
  refine ⟨by decide, by decide, by decide, ?_, fun s => rfl, ?_, ?_, ?_⟩
  · intro info h
    rw [dictGet_of_not_contains info "marketCap" (.str "N/A") h]
    rfl
  · intro n h
    exact ⟨fixed2Int n 1000000000000, by rw [formatMarketCap, if_pos h]⟩
  · intro n h1 h2
    exact ⟨fixed2Int n 1000000000,
      by rw [formatMarketCap, if_neg (by omega), if_pos h1]⟩
  · intro n h1 h2
    exact ⟨fixed2Int n 1000000,
      by rw [formatMarketCap, if_neg (by omega), if_neg (by omega), if_pos h1]⟩

/-- C4 witness: the quantified parts of `c4_market_cap_rendering`
evaluated at concrete values. -/
theorem c4_market_cap_rendering_witness :
    formatMarketCap (dictGet [("volume", .int 3)] "marketCap" (.str "N/A")) = "N/A" ∧
    (∃ t, formatMarketCap (.int 1234000000000) = "$" ++ t ++ "T") ∧
    (∃ t, formatMarketCap (.int 1234000000) = "$" ++ t ++ "B") ∧
    (∃ t, formatMarketCap (.int 1234000) = "$" ++ t ++ "M") :=
  ⟨c4_market_cap_rendering.2.2.2.1 [("volume", .int 3)] (by decide),
   c4_market_cap_rendering.2.2.2.2.2.1 1234000000000 (by decide),
   c4_market_cap_rendering.2.2.2.2.2.2.1 1234000000 (by decide) (by decide),
   c4_market_cap_rendering.2.2.2.2.2.2.2 1234000 (by decide) (by decide)⟩

/-- Provider of the C6 scenarios: the metadata lookup succeeds but yields
an empty dictionary (no live price field). -/
def c6Provider : Provider := ⟨fun _ => .ok [], fun _ => .ok []⟩

/-- C6 counterexample: `RELIANCE` is modified by suffix-guessing, yet on
missing metadata the returned error is the generic message that does NOT
mention the `.NS`/`.BO` suffixes — the hint is attached exactly in the
opposite case of what the claim states. -/
theorem c6_counterexample :
    resolveSymbol "RELIANCE" ≠ "RELIANCE" ∧
    get_stock_data "RELIANCE" c6Provider = .failure noDataGenericMsg ∧
    countOccur noDataGenericMsg ".NS" = 0 ∧ countOccur noDataGenericMsg ".BO" = 0 :=
  ⟨by decide, rfl, by decide, by decide⟩

/-- C6 amended: on missing metadata `get_stock_data` fails, and the error
message carries the `.NS`/`.BO` hint exactly when the resolver did NOT
modify the token; a token that was modified by suffix-guessing gets the
generic message without the hint. -/
theorem c6_no_data_hint_condition (symbol : String) (p : Provider) (info : InfoDict)
    (hi : p.info (resolveSymbol symbol) = .ok info)
    (hmiss : (info.isEmpty || !(dictContains info "regularMarketPrice")) = true) :
    (resolveSymbol symbol = symbol →
      get_stock_data symbol p = .failure (noDataHintMsg (resolveSymbol symbol))) ∧
    (resolveSymbol symbol ≠ symbol →
      get_stock_data symbol p = .failure noDataGenericMsg) := by
  constructor
  · intro he
    simp only [get_stock_data, hi]
    rw [if_pos hmiss, if_pos he.symm]
  · intro hne
    simp only [get_stock_data, hi]
    rw [if_pos hmiss, if_neg (fun hc => hne hc.symm)]

/-- C6 witness: both branches of `c6_no_data_hint_condition` on concrete
tokens — an unmodified token gets the hint, a suffix-guessed one does
not. -/
theorem c6_no_data_hint_condition_witness :
    get_stock_data "AAPL" c6Provider = .failure (noDataHintMsg "AAPL") ∧
    get_stock_data "RELIANCE" c6Provider = .failure noDataGenericMsg :=
  ⟨(c6_no_data_hint_condition "AAPL" c6Provider [] rfl rfl).1 rfl,
   (c6_no_data_hint_condition "RELIANCE" c6Provider [] rfl rfl).2 (by decide)⟩

/-- Taking at least the left part of an appended string keeps that part
whole. -/
theorem pyTake_append_left (a b : String) (n : Nat) (h : a.length ≤ n) :
    pyTake (a ++ b) n = a ++ pyTake b (n - a.length) := by
  apply strExt
  show ((a ++ b).data).take n = (a ++ pyTake b (n - a.length)).data
  rw [sdata_append, List.take_append_eq_append_take, List.take_of_length_le h, sdata_append]
  rfl

/-- When the uppercased symbol has at most 976 characters, the formatted
message starts with the full symbol header line (truncation to 997
characters can only cut inside the body). -/
theorem format_header (symbol : String) (info : InfoDict) (analysis : String)
    (h : (pyUpper symbol).length ≤ 976) :
    ∃ t, format_stock_message symbol info analysis =
      ("📊 *" ++ pyUpper symbol ++ " Stock Analysis*\n\n") ++ t := by
  have hhd : ("📊 *" ++ pyUpper symbol ++ " Stock Analysis*\n\n").length
      = 21 + (pyUpper symbol).length := by
    rw [slength_append, slength_append]
    have h1 : ("📊 *" : String).length = 3 := rfl
    have h2 : (" Stock Analysis*\n\n" : String).length = 18 := rfl
    rw [h1, h2]; omega
  unfold format_stock_message
  by_cases hc : (formatUnbounded symbol info analysis).length > 1000
  · rw [if_pos hc]
    refine ⟨pyTake (formatBody info analysis)
        (997 - ("📊 *" ++ pyUpper symbol ++ " Stock Analysis*\n\n").length) ++ "...", ?_⟩
    rw [show formatUnbounded symbol info analysis
        = ("📊 *" ++ pyUpper symbol ++ " Stock Analysis*\n\n") ++ formatBody info analysis
      from rfl]
    rw [pyTake_append_left _ _ 997 (by omega), sappend_assoc]
  · rw [if_neg hc]
    exact ⟨formatBody info analysis, rfl⟩

/-- C10 amended: when the chart-failure branch of `handle_stock` runs with
the local `analysis` bound (the send of the photo failed) and the
uppercased symbol has at most 976 characters, the delivered fallback text
contains the `Stock Analysis` header twice — once from the branch prefix
and once from the formatted message; for longer symbols the second
occurrence is removed by the 1000-character truncation. -/
theorem c10_fallback_double_header (text analysisStr e : String) (env : Env)
    (info : InfoDict) (history : List ℚ)
    (hfetch : get_stock_data (pyUpper (pyStrip text)) env.provider = .success info history)
    (hplot : env.chart.plotError = none) (hsave : env.chart.saveError = none)
    (hapi : get_perplexity_analysis info env.api = .ok analysisStr)
    (hsend : env.replyPhotoError = some e)
    (hlen : (pyUpper (pyUpper (pyStrip text))).length ≤ 976) :
    ∃ t, deliveredText (handle_stock text env) =
      ("📊 *" ++ pyUpper (pyUpper (pyStrip text)) ++ " - ")
        ++ ("Stock Analysis"
          ++ (("*\n\n" ++ "❌ Chart generation failed, but here's the analysis:\n\n"
                ++ "📊 *" ++ pyUpper (pyUpper (pyStrip text)) ++ " ")
            ++ ("Stock Analysis" ++ ("*\n\n" ++ t)))) := by
  have hst : handle_stock text env = chartFailBranch (pyUpper (pyStrip text)) info (some analysisStr) := by
    simp only [handle_stock, hfetch, generate_chart, hplot, hsave, hapi, hsend]
  obtain ⟨t, hf⟩ := format_header (pyUpper (pyStrip text)) info analysisStr hlen
  refine ⟨t, ?_⟩
  rw [hst]
  simp only [chartFailBranch, deliveredText, hf]
  apply strExt
  simp only [sdata_append, List.append_assoc, List.cons_append, List.nil_append]

/-- C10 witness: `c10_fallback_double_header` applied to a concrete
request whose photo delivery fails after the analysis was computed. -/
theorem c10_fallback_double_header_witness :
    ∃ t, deliveredText (handle_stock "aapl"
        ⟨⟨fun _ => .ok [("regularMarketPrice", .int 1), ("marketCap", .int 5), ("volume", .int 7)],
          fun _ => .ok [1]⟩, ⟨none, none⟩, .timeout, some "network down"⟩) =
      ("📊 *" ++ pyUpper (pyUpper (pyStrip "aapl")) ++ " - ")
        ++ ("Stock Analysis"
          ++ (("*\n\n" ++ "❌ Chart generation failed, but here's the analysis:\n\n"
                ++ "📊 *" ++ pyUpper (pyUpper (pyStrip "aapl")) ++ " ")
            ++ ("Stock Analysis" ++ ("*\n\n" ++ t)))) :=
  c10_fallback_double_header "aapl" "Unable to generate analysis: Request timed out"
    "network down"
    ⟨⟨fun _ => .ok [("regularMarketPrice", .int 1), ("marketCap", .int 5), ("volume", .int 7)],
      fun _ => .ok [1]⟩, ⟨none, none⟩, .timeout, some "network down"⟩
    [("regularMarketPrice", .int 1), ("marketCap", .int 5), ("volume", .int 7)] [1]
    rfl rfl rfl rfl rfl (by decide)


/-- Request oracle of the C10 counterexample: fetch, chart and analysis
succeed, sending the photo fails. -/
def c10Env : Env :=
  ⟨⟨fun _ => .ok [("regularMarketPrice", .int 1), ("marketCap", .int 5), ("volume", .int 7)],
    fun _ => .ok [1]⟩, ⟨none, none⟩, .timeout, some "network down"⟩

/-- The 1000-character symbol of the C10 counterexample. -/
def c10Symbol : String := ⟨List.replicate 1000 'A'⟩

/-- The info dictionary the C10 counterexample provider returns. -/
def c10Info : InfoDict :=
  [("regularMarketPrice", .int 1), ("marketCap", .int 5), ("volume", .int 7)]

set_option maxRecDepth 60000 in
/-- C10 counterexample: for a 1000-character symbol the chart-failure
branch runs with `analysis` bound and delivers its fallback (the first
conjunct exhibits the exact delivered text), yet the message returned by
`format_stock_message` contains NO `Stock Analysis` header — the
1000-character truncation cut it — so the delivered text carries the
header only once, from the branch prefix. -/
theorem c10_counterexample :
    handle_stock c10Symbol c10Env =
      .edited (("📊 *" ++ pyUpper (pyUpper (pyStrip c10Symbol)) ++ " - Stock Analysis*\n\n")
        ++ ("❌ Chart generation failed, but here's the analysis:\n\n"
          ++ format_stock_message (pyUpper (pyStrip c10Symbol)) c10Info
               "Unable to generate analysis: Request timed out")) ∧
    countOccur (format_stock_message (pyUpper (pyStrip c10Symbol)) c10Info
        "Unable to generate analysis: Request timed out") "Stock Analysis" = 0 ∧
    countOccur ("📊 *" ++ pyUpper (pyUpper (pyStrip c10Symbol)) ++ " - Stock Analysis*\n\n")
        "Stock Analysis" = 1 := by
  refine ⟨?_, by decide, by decide⟩
  have hfetch : get_stock_data (pyUpper (pyStrip c10Symbol)) c10Env.provider
      = .success c10Info [1] := by
    decide
  simp only [handle_stock, hfetch, generate_chart, chartFailBranch]
  rfl
